import Mathlib

/-!
Shallow embedding of the agentic-workflow-poc repository.

The embedding covers:
* `src/tools/weather_tools.py` — `format_alert` and `get_weather_alert_by_code`,
  modelled over an explicit HTTP outcome (transport error / status / parsed body);
* `src/agents/base_agent.py` — the constructor type checks of `BaseAgent.__init__`;
* `src/agents/weather_agent.py` — `WeatherAgent.__init__` (tool binding) and
  `WeatherAgent.execute` (history normalisation, query stripping, the empty-query
  guard, the engine invocation and the catch-all exception boundary).

The langchain `AgentExecutor.ainvoke` call and the HTTP client are external
collaborators; they are modelled as opaque parameters (a function from the
executor input to an outcome that is either a returned dictionary or a raised
exception, and an HTTP outcome value, respectively).  Dictionaries whose keys
and values matter to the claims are modelled as association lists.
-/

/-- A conversation turn `{role, content}` as carried in `chat_history`. -/
structure Turn where
  role : String
  content : String
deriving DecidableEq, Repr

/-- The dynamic `chat_history` argument of `WeatherAgent.execute`: either an
actual Python list of turns, or some non-list value (e.g. a string), which the
code detects with `isinstance(chat_history, list)`. -/
inductive HistArg where
  | list (turns : List Turn)
  | notList (descr : String)
deriving DecidableEq, Repr

/-- The Python value of the `properties` object of a feature: an association list
from field names to string values (Python dicts have unique keys; lookup takes
the first binding). -/
abbrev Props := List (String × String)

/-- Python `props.get(key, default)` on a dict. -/
def dictGet (props : Props) (key dflt : String) : String :=
  match props.lookup key with
  | some v => v
  | none => dflt

/-- A feature of the alerts response body.  `properties = none` models a
feature dict without a `"properties"` key; `alert.get("properties", {})` then
yields the empty dict, exactly as `Option.getD` below. -/
structure Alert where
  properties : Option Props
deriving DecidableEq, Repr

/-- Embedding of `format_alert` from `src/tools/weather_tools.py`.  The f-string template is
reproduced byte for byte (leading newline, 8-space indentation of each field
line, trailing newline plus 4 spaces). -/
def format_alert (alert : Alert) : String :=
  let props := alert.properties.getD []
  if props = [] then ""
  else
    "\n        Event: " ++ dictGet props "event" "Unknown" ++
    "\n        Description: " ++ dictGet props "description" "No description available" ++
    "\n        Severity: " ++ dictGet props "severity" "Unknown" ++
    "\n        Area: " ++ dictGet props "areaDesc" "Unknown" ++
    "\n        Instructions: " ++ dictGet props "instruction" "No instructions available" ++
    "\n    "

/-- The parsed JSON body of a 2xx alerts response, as far as the tool inspects
it: whether the `"features"` key is present (and, when present, its array of
features), plus the other top-level keys (which only matter for the Python
truthiness test `not result`: a dict is falsy iff it has no keys at all). -/
structure Body where
  otherKeys : List String
  features : Option (List Alert)
deriving DecidableEq, Repr

/-- Python truthiness of the parsed body: `not result` holds iff the dict is
empty, i.e. it has no `"features"` key and no other key. -/
def bodyIsEmptyDict (b : Body) : Bool :=
  b.otherKeys.isEmpty && b.features.isNone

/-- Python `str.join` with a separator, as in the source join of alert blocks. -/
def joinSep (sep : String) : List String → String
  | [] => ""
  | [s] => s
  | s :: rest => s ++ sep ++ joinSep sep rest

/-- What the HTTP interaction of `get_weather_alert_by_code` produced:
either `client.get` itself raised (connection error, timeout, ...), or a
response arrived with a status code and a body whose JSON parse either raised
(`Except.error`) or yielded a `Body`. -/
inductive HttpOutcome where
  | transportError (msg : String)
  | response (status : Nat) (body : Except String Body)
deriving Repr

/-- Embedding of `get_weather_alert_by_code` from `src/tools/weather_tools.py`, as a
function of the HTTP outcome.  `response.raise_for_status()` raises
`httpx.HTTPStatusError` exactly when the status is not 2xx; that exception and
every other exception (transport, JSON decode) is caught by the two `except`
clauses, both of which return `None` — modelled as `none`. -/
def get_weather_alert_by_code (out : HttpOutcome) : Option String :=
  match out with
  | HttpOutcome.transportError _ => none
  | HttpOutcome.response status body =>
    if status < 200 ∨ 300 ≤ status then none
    else
      match body with
      | Except.error _ => none
      | Except.ok result =>
        if bodyIsEmptyDict result || result.features.isNone then
          some "Unable to fetch alerts or No alerts found for the given state."
        else
          let feats := result.features.getD []
          if feats.isEmpty then some "No alerts found for the given state."
          else
            let alerts := feats.map format_alert
            if alerts.isEmpty then some "No alerts found for the given state."
            else some (joinSep "\n---\n" alerts)

example : get_weather_alert_by_code (HttpOutcome.response 200
    (Except.ok { otherKeys := [], features := some [] }))
    = some "No alerts found for the given state." := by rfl

example : get_weather_alert_by_code (HttpOutcome.response 404
    (Except.ok { otherKeys := [], features := some [] })) = none := by rfl

example : get_weather_alert_by_code (HttpOutcome.response 200
    (Except.ok { otherKeys := ["title"], features := none }))
    = some "Unable to fetch alerts or No alerts found for the given state." := by rfl

example : format_alert { properties := none } = "" := by rfl

example : format_alert { properties := some [("event", "Flood")] }
    = "\n        Event: Flood\n        Description: No description available\n        Severity: Unknown\n        Area: Unknown\n        Instructions: No instructions available\n    " := by rfl

example : ("a" : String) ≠ "b" := by decide

/-! ## Agent construction (`BaseAgent.__init__`, `WeatherAgent.__init__`) -/

/-- The dynamic `llm` constructor argument, as far as `BaseAgent.__init__`
inspects it: whether `isinstance(llm, BaseChatModel)` holds. -/
structure LLMArg where
  isChatModel : Bool
deriving DecidableEq, Repr

/-- One element of the `tools` constructor argument: its `name` (what
`tool.get_name()` returns) and whether `isinstance(tool, BaseTool)` holds. -/
structure ToolArg where
  name : String
  isBaseTool : Bool
deriving DecidableEq, Repr

/-- The dynamic `tools` constructor argument: an actual Python list of tool
values, or a non-list value, detected by `isinstance(tools, list)`. -/
inductive ToolsArg where
  | list (tools : List ToolArg)
  | notList (descr : String)
deriving DecidableEq, Repr

/-- Embedding of `BaseAgent.__init__` from `src/agents/base_agent.py`: raises `TypeError`
(modelled as `Except.error` with the message) unless `llm` is a `BaseChatModel`
and `tools` is a list whose members are all `BaseTool` instances; on success
the tool list is bound as `self.tools`. -/
def baseAgentInit (llm : LLMArg) (tools : ToolsArg) : Except String (List ToolArg) :=
  if !llm.isChatModel then
    Except.error "llm must be an instance of BaseChatModel."
  else
    match tools with
    | ToolsArg.notList _ => Except.error "tools must be a list of BaseTool instances."
    | ToolsArg.list ts =>
      if !(ts.all fun t => t.isBaseTool) then
        Except.error "tools must be a list of BaseTool instances."
      else Except.ok ts

/-- The state a successfully constructed `WeatherAgent` carries (the parts the
claims are about): the bound tools and `self.tool_names`. -/
structure WeatherAgentState where
  tools : List ToolArg
  tool_names : List String
deriving DecidableEq, Repr

/-- Embedding of `WeatherAgent.__init__` from `src/agents/weather_agent.py`: delegates the
type checks to `BaseAgent.__init__`, then computes
`self.tool_names = [tool.get_name() for tool in self.tools]` and builds the
prompt and the executor.  No further validation is performed. -/
def weatherAgentInit (llm : LLMArg) (tools : ToolsArg) : Except String WeatherAgentState :=
  match baseAgentInit llm tools with
  | Except.error e => Except.error e
  | Except.ok ts => Except.ok { tools := ts, tool_names := ts.map fun t => t.name }

/-! ## `WeatherAgent.execute` -/

/-- Python `str.strip()`: remove leading and trailing whitespace. -/
def pyStrip (s : String) : String :=
  String.mk (((s.data.dropWhile Char.isWhitespace).reverse.dropWhile
    Char.isWhitespace).reverse)

/-- The dictionary `execute` passes to `self.agent_executor.ainvoke`. -/
structure EngineInput where
  input : String
  chat_history : List Turn
  agent_scratchpad : List Turn
deriving DecidableEq, Repr

/-- What one `ainvoke` call did: either it returned a result dictionary
(modelled as an association list of string keys and values), or it raised an
exception with a message.  `toolCalls` counts the tool invocations the
executor performed inside the call — tools are only ever invoked from within
the executor, so an `execute` call that never reaches `ainvoke` performs zero
tool invocations. -/
inductive EngineOutcome where
  | ok (result : List (String × String)) (toolCalls : Nat)
  | exn (msg : String) (toolCalls : Nat)
deriving DecidableEq, Repr

/-- The opaque agent executor (LLM loop plus tools) behind
`self.agent_executor.ainvoke`. -/
def Engine := EngineInput → EngineOutcome

/-- Observable outcome of one `WeatherAgent.execute` call: the returned
dictionary, the log lines emitted, the `ainvoke` calls performed, the number
of tool invocations, and the caller-visible final state of the
`chat_history` argument (Python rebinding of the local name never mutates the
list held by the caller, so the code passes it through unchanged). -/
structure ExecTrace where
  result : List (String × String)
  logs : List String
  engineCalls : List EngineInput
  toolCalls : Nat
  callerHistory : HistArg
deriving Repr

/-- Embedding of `WeatherAgent.execute` from `src/agents/weather_agent.py`.  The whole body
runs inside `try`; in this embedding the only exception source is the engine
call (history normalisation and `str.strip` are total), and the `except`
clause turns an exception into `{"error": f"Unable to process the  query: {e}"}`
(the double space is in the source). -/
def WeatherAgent.execute (engine : Engine) (query : String) (chat_history : HistArg) :
    ExecTrace :=
  let histAndLog : List Turn × List String :=
    match chat_history with
    | HistArg.list ts => (ts, [])
    | HistArg.notList _ => ([], ["chat_history must be a list; defaulting to empty list"])
  let formatted_query := pyStrip query
  let logs1 := histAndLog.2 ++ ["Executing query: " ++ formatted_query]
  if formatted_query = "" then
    { result := [("error", "Empty query provided")], logs := logs1,
      engineCalls := [], toolCalls := 0, callerHistory := chat_history }
  else
    let inp : EngineInput :=
      { input := formatted_query, chat_history := histAndLog.1, agent_scratchpad := [] }
    match engine inp with
    | EngineOutcome.ok r tc =>
      { result := r, logs := logs1, engineCalls := [inp], toolCalls := tc,
        callerHistory := chat_history }
    | EngineOutcome.exn m tc =>
      { result := [("error", "Unable to process the  query: " ++ m)],
        logs := logs1 ++ ["Failed to execute  query \x27" ++ query ++ "\x27: " ++ m],
        engineCalls := [inp], toolCalls := tc, callerHistory := chat_history }

/-- The turns `execute` actually hands to the engine for a given
`chat_history` argument: the list itself, or `[]` after normalisation. -/
def histOf : HistArg → List Turn
  | HistArg.list ts => ts
  | HistArg.notList _ => []

/-- The `ainvoke` input `execute` builds from its arguments. -/
def execInput (query : String) (h : HistArg) : EngineInput :=
  { input := pyStrip query, chat_history := histOf h, agent_scratchpad := [] }

example : pyStrip "  hi there \n" = "hi there" := by decide

example :
    (WeatherAgent.execute (fun _ => EngineOutcome.ok [("output", "sunny")] 1)
      "weather? " (HistArg.notList "bogus")).result = [("output", "sunny")] := by decide

example :
    (WeatherAgent.execute (fun _ => EngineOutcome.exn "boom" 0)
      "   " (HistArg.list [])).result = [("error", "Empty query provided")] := by decide

/-! ## Helper lemmas -/

/-- The log line the history normalisation emits, per shape of the argument. -/
def normLogs : HistArg → List String
  | HistArg.list _ => []
  | HistArg.notList _ => ["chat_history must be a list; defaulting to empty list"]

/-- Closed-form description of `WeatherAgent.execute`, by cases on the shape
of the `chat_history` argument. -/
theorem execute_spec (engine : Engine) (query : String) (h : HistArg) :
    WeatherAgent.execute engine query h =
      if pyStrip query = "" then
        { result := [("error", "Empty query provided")],
          logs := normLogs h ++ ["Executing query: " ++ pyStrip query],
          engineCalls := [], toolCalls := 0, callerHistory := h }
      else
        match engine (execInput query h) with
        | EngineOutcome.ok r tc =>
          { result := r,
            logs := normLogs h ++ ["Executing query: " ++ pyStrip query],
            engineCalls := [execInput query h], toolCalls := tc, callerHistory := h }
        | EngineOutcome.exn m tc =>
          { result := [("error", "Unable to process the  query: " ++ m)],
            logs := normLogs h ++ ["Executing query: " ++ pyStrip query]
              ++ ["Failed to execute  query \x27" ++ query ++ "\x27: " ++ m],
            engineCalls := [execInput query h], toolCalls := tc, callerHistory := h } := by
  cases h <;> rfl

/-- A feature whose `properties` key is absent or empty formats to `""`. -/
theorem format_alert_empty_of_no_props (f : Alert) (h : f.properties.getD [] = []) :
    format_alert f = "" := by
  simp [format_alert, h]

/-! ## Claims -/

/-- C5 (counterexample): a 2xx response whose JSON body lacks the
`"features"` key does not yield the sentinel string
`"No alerts found for the given state."`; the code returns the longer string
`"Unable to fetch alerts or No alerts found for the given state."` instead. -/
theorem c5_missing_features_key_counterexample :
    get_weather_alert_by_code (HttpOutcome.response 200
        (Except.ok { otherKeys := ["title"], features := none }))
      = some "Unable to fetch alerts or No alerts found for the given state."
    ∧ ("Unable to fetch alerts or No alerts found for the given state." : String)
      ≠ "No alerts found for the given state." :=
  ⟨rfl, by decide⟩

/-- C5 (amended): for a 2xx response, a body without the `"features"` key
yields `"Unable to fetch alerts or No alerts found for the given state."`,
while a body whose `"features"` array is empty yields the sentinel
`"No alerts found for the given state."`. -/
theorem c5_missing_key_vs_empty_array (status : Nat) (b : Body)
    (h1 : 200 ≤ status) (h2 : status < 300) :
    (b.features = none →
      get_weather_alert_by_code (HttpOutcome.response status (Except.ok b))
        = some "Unable to fetch alerts or No alerts found for the given state.")
    ∧ (b.features = some [] →
      get_weather_alert_by_code (HttpOutcome.response status (Except.ok b))
        = some "No alerts found for the given state.") := by
  have hs : ¬ (status < 200 ∨ 300 ≤ status) := by omega
  refine ⟨fun hf => ?_, fun hf => ?_⟩ <;>
    simp [get_weather_alert_by_code, hs, bodyIsEmptyDict, hf]

/-- C5 (witness): concrete instances of both branches at status 200. -/
theorem c5_missing_key_vs_empty_array_witness :
    get_weather_alert_by_code (HttpOutcome.response 200
        (Except.ok { otherKeys := ["title"], features := none }))
      = some "Unable to fetch alerts or No alerts found for the given state."
    ∧ get_weather_alert_by_code (HttpOutcome.response 200
        (Except.ok { otherKeys := [], features := some [] }))
      = some "No alerts found for the given state." :=
  ⟨(c5_missing_key_vs_empty_array 200 { otherKeys := ["title"], features := none }
      (by omega) (by omega)).1 rfl,
   (c5_missing_key_vs_empty_array 200 { otherKeys := [], features := some [] }
      (by omega) (by omega)).2 rfl⟩

/-- C6: a transport-level exception, a non-2xx status (for which
`raise_for_status` raises `httpx.HTTPStatusError`) and a body-parse exception
are all caught inside `get_weather_alert_by_code` and mapped to the absent
value `none`, which is distinct from the "no alerts" sentinel string. -/
theorem c6_faults_return_none :
    (∀ m, get_weather_alert_by_code (HttpOutcome.transportError m) = none)
    ∧ (∀ status body, status < 200 ∨ 300 ≤ status →
        get_weather_alert_by_code (HttpOutcome.response status body) = none)
    ∧ (∀ status e, get_weather_alert_by_code (HttpOutcome.response status
        (Except.error e)) = none)
    ∧ ((none : Option String) ≠ some "No alerts found for the given state.") := by
  refine ⟨fun m => rfl, fun status body hs => ?_, fun status e => ?_, by simp⟩
  · simp only [get_weather_alert_by_code]
    rw [if_pos hs]
  · simp only [get_weather_alert_by_code]
    by_cases hs : status < 200 ∨ 300 ≤ status
    · rw [if_pos hs]
    · rw [if_neg hs]

/-- C6 (witness): a 404 with a well-formed body, a 5xx, a parse failure and a
transport error all yield `none`. -/
theorem c6_faults_return_none_witness :
    get_weather_alert_by_code (HttpOutcome.response 404
        (Except.ok { otherKeys := [], features := some [] })) = none
    ∧ get_weather_alert_by_code (HttpOutcome.response 500
        (Except.ok { otherKeys := [], features := some [] })) = none
    ∧ get_weather_alert_by_code (HttpOutcome.response 200
        (Except.error "invalid json")) = none
    ∧ get_weather_alert_by_code (HttpOutcome.transportError "timeout") = none :=
  ⟨c6_faults_return_none.2.1 404 _ (by omega),
   c6_faults_return_none.2.1 500 _ (by omega),
   c6_faults_return_none.2.2.1 200 "invalid json",
   c6_faults_return_none.1 "timeout"⟩

/-- C7 (counterexample): a 2xx response with two features whose `properties`
are absent yields `"\n---\n"` — two empty blocks around the separator — not
two placeholder-filled blocks, because `format_alert` returns `""` (not a
block of placeholders) when the properties object is absent or empty. -/
theorem c7_two_features_counterexample :
    get_weather_alert_by_code (HttpOutcome.response 200 (Except.ok
        { otherKeys := [],
          features := some [{ properties := none }, { properties := none }] }))
      = some "\n---\n"
    ∧ format_alert { properties := none } = ""
    ∧ ("\n---\n" : String)
      ≠ "\n        Event: Unknown\n        Description: No description available\n        Severity: Unknown\n        Area: Unknown\n        Instructions: No instructions available\n    "
        ++ "\n---\n"
        ++ "\n        Event: Unknown\n        Description: No description available\n        Severity: Unknown\n        Area: Unknown\n        Instructions: No instructions available\n    " :=
  ⟨rfl, rfl, by decide⟩

/-- C7 (amended): for every 2xx response with exactly two features, the result
is the two `format_alert` blocks joined by the literal separator `"\n---\n"`;
and whenever the properties object of a feature is non-empty, its block renders
event, description, severity, areaDesc and instruction with the fixed
placeholder defaults for each absent field (a feature with an absent or empty
properties object instead contributes the empty string as its block). -/
theorem c7_two_features_joined (status : Nat) (ks : List String) (f1 f2 : Alert)
    (h1 : 200 ≤ status) (h2 : status < 300) :
    get_weather_alert_by_code (HttpOutcome.response status
        (Except.ok { otherKeys := ks, features := some [f1, f2] }))
      = some (format_alert f1 ++ "\n---\n" ++ format_alert f2)
    ∧ ∀ props : Props, props ≠ [] →
        format_alert { properties := some props }
          = "\n        Event: " ++ dictGet props "event" "Unknown" ++
            "\n        Description: " ++ dictGet props "description" "No description available" ++
            "\n        Severity: " ++ dictGet props "severity" "Unknown" ++
            "\n        Area: " ++ dictGet props "areaDesc" "Unknown" ++
            "\n        Instructions: " ++ dictGet props "instruction" "No instructions available" ++
            "\n    " := by
  have hs : ¬ (status < 200 ∨ 300 ≤ status) := by omega
  constructor
  · simp [get_weather_alert_by_code, hs, bodyIsEmptyDict, joinSep]
  · intro props hp
    simp [format_alert, hp]

/-- C7 (witness): concrete two-feature response — one feature with a partial
properties object, one with none. -/
theorem c7_two_features_joined_witness :
    get_weather_alert_by_code (HttpOutcome.response 250 (Except.ok
        { otherKeys := [],
          features := some [{ properties := some [("event", "Flood")] },
                            { properties := none }] }))
      = some (format_alert { properties := some [("event", "Flood")] }
          ++ "\n---\n" ++ format_alert { properties := none })
    ∧ format_alert { properties := some [("event", "Flood")] }
      = "\n        Event: Flood\n        Description: No description available\n        Severity: Unknown\n        Area: Unknown\n        Instructions: No instructions available\n    " :=
  ⟨(c7_two_features_joined 250 [] { properties := some [("event", "Flood")] }
      { properties := none } (by omega) (by omega)).1,
   (c7_two_features_joined 250 [] { properties := some [("event", "Flood")] }
      { properties := none } (by omega) (by omega)).2
     [("event", "Flood")] (by decide)⟩

/-- C10: a feature with an absent or empty `properties` object formats to the
empty string, so a 2xx response whose (non-empty) features all lack properties
yields exactly the empty blocks joined by `"\n---\n"` separators. -/
theorem c10_empty_properties_blocks (feats : List Alert) (status : Nat)
    (ks : List String) (hne : feats ≠ [])
    (hall : ∀ f ∈ feats, f.properties.getD [] = [])
    (h1 : 200 ≤ status) (h2 : status < 300) :
    format_alert { properties := none } = ""
    ∧ format_alert { properties := some [] } = ""
    ∧ get_weather_alert_by_code (HttpOutcome.response status
        (Except.ok { otherKeys := ks, features := some feats }))
      = some (joinSep "\n---\n" (feats.map fun _ => "")) := by
  refine ⟨rfl, rfl, ?_⟩
  have hmap : feats.map format_alert = feats.map fun _ => "" := by
    apply List.map_congr_left
    intro f hf
    exact format_alert_empty_of_no_props f (hall f hf)
  obtain ⟨a, as, rfl⟩ := List.exists_cons_of_ne_nil hne
  have hs : ¬ (status < 200 ∨ 300 ≤ status) := by omega
  simp only [get_weather_alert_by_code, if_neg hs, bodyIsEmptyDict,
    Option.isNone_some, Bool.and_false, Bool.false_or, Option.getD_some,
    List.isEmpty_cons, hmap]
  simp [List.isEmpty]

/-- C1: `execute` is total — it always returns a dictionary.  Whenever the
engine call raises, the exception is caught at the `execute` boundary and
converted into a dictionary whose single `"error"` entry mentions the failure
message; and in every case the returned dictionary is either the successful
result of the engine or a dictionary carrying an `"error"` key. -/
theorem c1_execute_catches_exceptions (engine : Engine) (query : String) (h : HistArg) :
    (∀ m tc, pyStrip query ≠ "" → engine (execInput query h) = EngineOutcome.exn m tc →
      (WeatherAgent.execute engine query h).result
        = [("error", "Unable to process the  query: " ++ m)])
    ∧ ((∃ v, ((WeatherAgent.execute engine query h).result).lookup "error" = some v)
      ∨ ∃ tc, engine (execInput query h)
          = EngineOutcome.ok ((WeatherAgent.execute engine query h).result) tc) := by
  rw [execute_spec]
  by_cases hq : pyStrip query = ""
  · rw [if_pos hq]
    exact ⟨fun m tc hne _ => absurd hq hne, Or.inl ⟨"Empty query provided", rfl⟩⟩
  · rw [if_neg hq]
    cases he : engine (execInput query h) with
    | ok r tc =>
      refine ⟨fun m tc2 _ hexn => ?_, Or.inr ⟨tc, rfl⟩⟩
      cases hexn
    | exn m tc =>
      refine ⟨fun m2 tc2 _ hexn => ?_,
        Or.inl ⟨"Unable to process the  query: " ++ m, rfl⟩⟩
      injection hexn with hm htc
      rw [hm]

/-- C1 (witness): a raising engine on a concrete query yields the error
dictionary carrying the exception message. -/
theorem c1_execute_catches_exceptions_witness :
    (WeatherAgent.execute (fun _ => EngineOutcome.exn "boom" 0) "hi"
        (HistArg.list [])).result
      = [("error", "Unable to process the  query: boom")] :=
  (c1_execute_catches_exceptions (fun _ => EngineOutcome.exn "boom" 0) "hi"
      (HistArg.list [])).1 "boom" 0 (by decide) rfl

/-- C2 (counterexample): on a successful call `execute` returns the result
dictionary of the engine verbatim, which need not carry an `"answer"` key at
all (the langchain `AgentExecutor` convention is `"input"`/`"output"` keys), so the
success shape is not `{answer: string}`. -/
theorem c2_success_shape_counterexample :
    (WeatherAgent.execute
        (fun _ => EngineOutcome.ok [("input", "weather?"), ("output", "sunny")] 1)
        "weather?" (HistArg.list [])).result
      = [("input", "weather?"), ("output", "sunny")]
    ∧ ((WeatherAgent.execute
        (fun _ => EngineOutcome.ok [("input", "weather?"), ("output", "sunny")] 1)
        "weather?" (HistArg.list [])).result).lookup "answer" = none :=
  ⟨rfl, rfl⟩

/-- C2 (amended): on failure `execute` returns exactly the one-key dictionary
`{"error": <message>}` (the empty-query dictionary or the caught-exception
dictionary); on success it returns the result dictionary of the engine unchanged —
whatever keys that dictionary has — so no `{answer: string}` shape is
guaranteed. -/
theorem c2_result_shapes (engine : Engine) (query : String) (h : HistArg) :
    (pyStrip query = "" →
      (WeatherAgent.execute engine query h).result = [("error", "Empty query provided")])
    ∧ (∀ r tc, pyStrip query ≠ "" → engine (execInput query h) = EngineOutcome.ok r tc →
      (WeatherAgent.execute engine query h).result = r)
    ∧ (∀ m tc, pyStrip query ≠ "" → engine (execInput query h) = EngineOutcome.exn m tc →
      (WeatherAgent.execute engine query h).result
        = [("error", "Unable to process the  query: " ++ m)]) := by
  rw [execute_spec]
  by_cases hq : pyStrip query = ""
  · rw [if_pos hq]
    exact ⟨fun _ => rfl, fun r tc hne _ => absurd hq hne,
      fun m tc hne _ => absurd hq hne⟩
  · rw [if_neg hq]
    refine ⟨fun he => absurd he hq, fun r tc _ hok => ?_, fun m tc _ hexn => ?_⟩
    · rw [hok]
    · rw [hexn]

/-- C2 (witness): concrete success pass-through and concrete failure shape. -/
theorem c2_result_shapes_witness :
    (WeatherAgent.execute (fun _ => EngineOutcome.ok [("output", "sunny")] 0) "hi"
        (HistArg.list [])).result = [("output", "sunny")]
    ∧ (WeatherAgent.execute (fun _ => EngineOutcome.exn "down" 0) "hi"
        (HistArg.list [])).result = [("error", "Unable to process the  query: down")] :=
  ⟨(c2_result_shapes (fun _ => EngineOutcome.ok [("output", "sunny")] 0) "hi"
      (HistArg.list [])).2.1 [("output", "sunny")] 0 (by decide) rfl,
   (c2_result_shapes (fun _ => EngineOutcome.exn "down" 0) "hi"
      (HistArg.list [])).2.2 "down" 0 (by decide) rfl⟩

/-- C3 (counterexample): constructing a `WeatherAgent` with two tools that
share a name succeeds — no uniqueness check exists in `BaseAgent.__init__` or
`WeatherAgent.__init__` — and the bound `tool_names` are not pairwise
distinct. -/
theorem c3_duplicate_tool_names_accepted_counterexample :
    weatherAgentInit { isChatModel := true }
        (ToolsArg.list [{ name := "get_weather_alert_by_code", isBaseTool := true },
                        { name := "get_weather_alert_by_code", isBaseTool := true }])
      = Except.ok
          { tools := [{ name := "get_weather_alert_by_code", isBaseTool := true },
                      { name := "get_weather_alert_by_code", isBaseTool := true }],
            tool_names := ["get_weather_alert_by_code", "get_weather_alert_by_code"] }
    ∧ ¬ (["get_weather_alert_by_code", "get_weather_alert_by_code"] : List String).Nodup :=
  ⟨rfl, by decide⟩

/-- C3 (amended): construction validates only the dynamic types of its
arguments — the engine must be a `BaseChatModel` and the tools a list of
`BaseTool` instances.  Any such list is accepted, duplicate names included,
and the bound tool names are exactly the given names in order (with any
duplicates preserved). -/
theorem c3_construction_checks_types_only (llm : LLMArg) (ts : List ToolArg)
    (h1 : llm.isChatModel = true) (h2 : ts.all (fun t => t.isBaseTool) = true) :
    weatherAgentInit llm (ToolsArg.list ts)
      = Except.ok { tools := ts, tool_names := ts.map fun t => t.name } := by
  unfold weatherAgentInit baseAgentInit
  simp [h1, h2]

/-- C3 (witness): the amended construction behaviour at a concrete duplicate
tool list. -/
theorem c3_construction_checks_types_only_witness :
    weatherAgentInit { isChatModel := true }
        (ToolsArg.list [{ name := "w", isBaseTool := true },
                        { name := "w", isBaseTool := true }])
      = Except.ok { tools := [{ name := "w", isBaseTool := true },
                              { name := "w", isBaseTool := true }],
                    tool_names := ["w", "w"] } :=
  c3_construction_checks_types_only { isChatModel := true }
    [{ name := "w", isBaseTool := true }, { name := "w", isBaseTool := true }]
    rfl (by decide)

/-- C4: a query that strips to the empty string is rejected with exactly
`{"error": "Empty query provided"}`, with zero engine invocations and zero
tool invocations. -/
theorem c4_empty_query_rejected (engine : Engine) (query : String) (h : HistArg)
    (hq : pyStrip query = "") :
    (WeatherAgent.execute engine query h).result = [("error", "Empty query provided")]
    ∧ (WeatherAgent.execute engine query h).engineCalls = []
    ∧ (WeatherAgent.execute engine query h).toolCalls = 0 := by
  rw [execute_spec, if_pos hq]
  exact ⟨rfl, rfl, rfl⟩

/-- C4 (witness): a whitespace-only query at a concrete engine. -/
theorem c4_empty_query_rejected_witness :
    (WeatherAgent.execute (fun _ => EngineOutcome.ok [("output", "x")] 3) " \t \n "
        (HistArg.list [{ role := "user", content := "earlier" }])).result
      = [("error", "Empty query provided")]
    ∧ (WeatherAgent.execute (fun _ => EngineOutcome.ok [("output", "x")] 3) " \t \n "
        (HistArg.list [{ role := "user", content := "earlier" }])).engineCalls = []
    ∧ (WeatherAgent.execute (fun _ => EngineOutcome.ok [("output", "x")] 3) " \t \n "
        (HistArg.list [{ role := "user", content := "earlier" }])).toolCalls = 0 :=
  c4_empty_query_rejected (fun _ => EngineOutcome.ok [("output", "x")] 3) " \t \n "
    (HistArg.list [{ role := "user", content := "earlier" }]) (by decide)

/-- C8: a non-list `chat_history` argument is normalised to the empty history
with a logged message, and (for a non-empty query) `execute` proceeds to
invoke the engine exactly once, with the empty history, instead of returning
or raising an error.  (An empty query is still rejected first, by the
empty-query guard of C4, independently of the history argument.) -/
theorem c8_malformed_history_normalised (engine : Engine) (query : String)
    (d : String) (hq : pyStrip query ≠ "") :
    "chat_history must be a list; defaulting to empty list"
      ∈ (WeatherAgent.execute engine query (HistArg.notList d)).logs
    ∧ (WeatherAgent.execute engine query (HistArg.notList d)).engineCalls
      = [{ input := pyStrip query, chat_history := [], agent_scratchpad := [] }] := by
  rw [execute_spec, if_neg hq]
  cases he : engine (execInput query (HistArg.notList d)) with
  | ok r tc => exact ⟨by simp [normLogs], rfl⟩
  | exn m tc => exact ⟨by simp [normLogs], rfl⟩

/-- C8 (witness): a string history at a concrete query and engine. -/
theorem c8_malformed_history_normalised_witness :
    "chat_history must be a list; defaulting to empty list"
      ∈ (WeatherAgent.execute (fun _ => EngineOutcome.ok [("output", "ok")] 0)
          "weather in CA?" (HistArg.notList "a plain string")).logs
    ∧ (WeatherAgent.execute (fun _ => EngineOutcome.ok [("output", "ok")] 0)
          "weather in CA?" (HistArg.notList "a plain string")).engineCalls
      = [{ input := "weather in CA?", chat_history := [], agent_scratchpad := [] }] :=
  c8_malformed_history_normalised (fun _ => EngineOutcome.ok [("output", "ok")] 0)
    "weather in CA?" "a plain string" (by decide)

/-- C9: the function `execute` never mutates the `chat_history` of the caller: the caller-visible
history after the call is the argument itself, unchanged, on every path
(empty query, engine success, engine failure, and malformed history — where
only the local name is rebound). -/
theorem c9_history_not_mutated (engine : Engine) (query : String) (h : HistArg) :
    (WeatherAgent.execute engine query h).callerHistory = h
    ∧ histOf (WeatherAgent.execute engine query h).callerHistory = histOf h := by
  rw [execute_spec]
  by_cases hq : pyStrip query = ""
  · rw [if_pos hq]
    exact ⟨rfl, rfl⟩
  · rw [if_neg hq]
    cases engine (execInput query h) with
    | ok r tc => exact ⟨rfl, rfl⟩
    | exn m tc => exact ⟨rfl, rfl⟩

/-- C10 (witness): a single feature without properties yields `some ""`. -/
theorem c10_empty_properties_blocks_witness :
    get_weather_alert_by_code (HttpOutcome.response 200 (Except.ok
        { otherKeys := [], features := some [{ properties := none }] }))
      = some "" := by
  have h := c10_empty_properties_blocks [{ properties := none }] 200 []
    (by decide) (by decide) (by omega) (by omega)
  simpa [joinSep] using h.2.2

